import Mathlib

/-!
Shallow embedding of the core certificate-lifecycle logic of the
lab-update-esxi-cert repository (main.go, lego_cert_work.go).

Times are modelled as Unix seconds (integers).  The Go code computes
percent-remaining ratios with float64 division; here they are exact
rationals, with the division-by-zero edge (total lifetime = 0, where Go
produces plus or minus infinity or NaN) mirrored explicitly in the
comparison functions goFloatLE and goFloatGT.
-/

/-- Signature algorithm of an X.509 certificate; only the distinction
SHA256WithRSA versus anything else matters to the code. -/
inductive SigAlg where
  | sha256WithRSA
  | other
  deriving DecidableEq, Repr

/-- The fields of an observed x509.Certificate that the code inspects. -/
structure GoCert where
  notBefore : ℤ
  notAfter : ℤ
  sigAlg : SigAlg
  deriving DecidableEq, Repr

/-- The configuration fields of the Config struct (main.go) that the
embedded logic reads. -/
structure Config where
  hostname : List Char
  threshold : ℚ
  dryRun : Bool
  force : Bool
  keySize : ℤ
  deriving DecidableEq, Repr

/-- Index of the first occurrence of a character in a character list,
modelling bytealg.IndexByteString for the ASCII characters used here. -/
def indexOfChar : List Char → Char → Option ℕ
  | [], _ => none
  | a :: rest, c => if a = c then some 0 else (indexOfChar rest c).map (· + 1)

/-- Index of the last occurrence of a character, modelling the
last-colon search in net.SplitHostPort. -/
def lastIndexOfChar (s : List Char) (c : Char) : Option ℕ :=
  match indexOfChar s.reverse c with
  | none => none
  | some i => some (s.length - 1 - i)

/-- Model of net.SplitHostPort: the port starts after the last colon;
a leading bracket delimits an IPv6 host; error cases collapse to none. -/
def splitHostPort (hp : List Char) : Option (List Char × List Char) :=
  match lastIndexOfChar hp ':' with
  | none => none
  | some i =>
    match hp with
    | '[' :: tail =>
      (match indexOfChar hp ']' with
       | none => none
       | some e =>
         if e + 1 = hp.length then none
         else if e + 1 = i then
           if indexOfChar tail '[' ≠ none then none
           else if indexOfChar (hp.drop (e + 1)) ']' ≠ none then none
           else some ((hp.drop 1).take (e - 1), hp.drop (i + 1))
         else none)
    | _ =>
      let host := hp.take i
      if indexOfChar host ':' ≠ none then none
      else if indexOfChar hp '[' ≠ none then none
      else if indexOfChar hp ']' ≠ none then none
      else some (host, hp.drop (i + 1))

/-- Model of net.JoinHostPort: brackets the host when it contains a colon. -/
def joinHostPort (host port : List Char) : List Char :=
  if indexOfChar host ':' ≠ none then ('[' :: host) ++ (']' :: ':' :: port)
  else host ++ (':' :: port)

/-- The literal default port string "443". -/
def port443 : List Char := ['4', '4', '3']

/-- Address dialed by checkCertificateWithDialer (lego_cert_work.go lines
89 to 98): on a SplitHostPort error the whole hostname is used with the
default port 443. -/
def checkDialAddr (hostname : List Char) : List Char :=
  match splitHostPort hostname with
  | none => joinHostPort hostname port443
  | some (h, p) => joinHostPort h p

/-- Address dialed by validateCertificateWithDialer (lego_cert_work.go
lines 716 to 727); the source duplicates the inspector parsing verbatim. -/
def validateDialAddr (hostname : List Char) : List Char :=
  match splitHostPort hostname with
  | none => joinHostPort hostname port443
  | some (h, p) => joinHostPort h p

/-- Go float64 comparison remaining / total <= q, with the total = 0 case
mirroring IEEE: the quotient is -Inf (true), NaN (false) or +Inf (false)
according to the sign of remaining. -/
def goFloatLE (remaining total : ℤ) (q : ℚ) : Bool :=
  if total = 0 then decide (remaining < 0)
  else decide ((remaining : ℚ) / (total : ℚ) ≤ q)

/-- Go float64 comparison remaining / total > q (q nonnegative), with the
total = 0 case mirroring IEEE: +Inf (true), NaN or -Inf (false). -/
def goFloatGT (remaining total : ℤ) (q : ℚ) : Bool :=
  if total = 0 then decide (0 < remaining)
  else decide (q < (remaining : ℚ) / (total : ℚ))

/-- The exact percent-remaining ratio (NotAfter - now) / (NotAfter - NotBefore)
used throughout the spec discussion. -/
def percentRemainingQ (nb na now : ℤ) : ℚ :=
  ((na - now : ℤ) : ℚ) / ((na - nb : ℤ) : ℚ)

/-- needsRenewal computation of checkCertificateWithDialer (lego_cert_work.go
lines 118 to 127): percentRemaining <= threshold under float semantics. -/
def needsRenewalCalc (nb na now : ℤ) (threshold : ℚ) : Bool :=
  goFloatLE (na - now) (na - nb) threshold

/-- Errors the inspector can return. -/
inductive CheckErr where
  | connectionFailed
  | noCertificates
  deriving DecidableEq, Repr

/-- checkCertificateWithDialer (lego_cert_work.go lines 86 to 135): dial the
parsed address, fail on connection error or empty chain, else take the leaf
certificate and compare percentRemaining against the threshold.  The dialer
returns none on connection failure and the peer chain otherwise. -/
def checkCertificateWithDialer (hostname : List Char) (threshold : ℚ)
    (dial : List Char → Option (List GoCert)) (now : ℤ) :
    Except CheckErr (Bool × GoCert) :=
  match dial (checkDialAddr hostname) with
  | none => Except.error CheckErr.connectionFailed
  | some [] => Except.error CheckErr.noCertificates
  | some (c :: _) =>
      Except.ok (needsRenewalCalc c.notBefore c.notAfter now threshold, c)

/-- Filesystem facts getCachedCertificate observes about the cache entry for
one hostname: file existence, readability, PEM decodability, parsability, and
the parsed certificate when parsing succeeds. -/
structure CacheState where
  certFileExists : Bool
  keyFileExists : Bool
  certReadOk : Bool
  pemDecodeOk : Bool
  parseOk : Bool
  cachedCert : GoCert
  deriving DecidableEq, Repr

/-- The fixed cache directory name "esxi-cert-cache". -/
def cacheDirName : List Char :=
  ['e', 's', 'x', 'i', '-', 'c', 'e', 'r', 't', '-', 'c', 'a', 'c', 'h', 'e']

/-- The "-cert.pem" suffix of cached certificate files. -/
def certSuffix : List Char := ['-', 'c', 'e', 'r', 't', '.', 'p', 'e', 'm']

/-- The "-key.pem" suffix of cached key files. -/
def keySuffix : List Char := ['-', 'k', 'e', 'y', '.', 'p', 'e', 'm']

/-- filepath.Join for the nonempty components used here. -/
def filepathJoin (a b : List Char) : List Char := a ++ ('/' :: b)

/-- Cached certificate path: tmpDir/esxi-cert-cache/hostname-cert.pem. -/
def cachedCertPath (tmpDir hostname : List Char) : List Char :=
  filepathJoin (filepathJoin tmpDir cacheDirName) (hostname ++ certSuffix)

/-- Cached key path: tmpDir/esxi-cert-cache/hostname-key.pem. -/
def cachedKeyPath (tmpDir hostname : List Char) : List Char :=
  filepathJoin (filepathJoin tmpDir cacheDirName) (hostname ++ keySuffix)

/-- getCachedCertificate (lego_cert_work.go lines 138 to 200).  Force skips the
cache; a missing, unreadable, undecodable or unparsable file is a soft miss;
then the signature algorithm must be SHA256WithRSA and percentRemaining must
exceed 0.5 (float semantics) for a hit.  Returns (certPath, keyPath, found),
with empty paths on a miss, and never an error. -/
def getCachedCertificate (tmpDir : List Char) (config : Config)
    (st : CacheState) (now : ℤ) : List Char × List Char × Bool :=
  if config.force then ([], [], false)
  else if ¬ st.certFileExists then ([], [], false)
  else if ¬ st.keyFileExists then ([], [], false)
  else if ¬ st.certReadOk then ([], [], false)
  else if ¬ st.pemDecodeOk then ([], [], false)
  else if ¬ st.parseOk then ([], [], false)
  else if st.cachedCert.sigAlg ≠ SigAlg.sha256WithRSA then ([], [], false)
  else if goFloatGT (st.cachedCert.notAfter - now)
      (st.cachedCert.notAfter - st.cachedCert.notBefore) (1 / 2) then
    (cachedCertPath tmpDir config.hostname, cachedKeyPath tmpDir config.hostname, true)
  else ([], [], false)

/-- Key size actually used by generatePrivateKey (lego_cert_work.go lines 303
to 320): any configured size other than 2048 or 4096 is replaced by 4096. -/
def generatePrivateKeySize (config : Config) : ℤ :=
  if config.keySize ≠ 2048 ∧ config.keySize ≠ 4096 then 4096 else config.keySize

/-- Change criterion of the validation loop (lego_cert_work.go lines 750 to
761): the certificate counts as rotated only when NotAfter differs from the
previous NotAfter and the absolute difference exceeds 3600 seconds. -/
def certChanged (newNA oldNA : ℤ) : Bool :=
  if newNA ≠ oldNA then
    if 3600 < |newNA - oldNA| then true else false
  else false

/-- Polling loop of validateCertificateWithDialer (lego_cert_work.go lines 725
to 768).  Step k runs at time start + k * interval; the loop runs while that
is before the deadline.  A connection failure (dial = none) or an empty chain
sleeps and retries; a read certificate ends the loop with (true, nil error)
when certChanged holds, else the loop sleeps and retries.  Reaching the
deadline returns (false, nil error). -/
def validateLoopAux (dial : ℕ → Option (List GoCert)) (oldNA : ℤ)
    (maxDur interval : ℕ) (hi : 0 < interval) (k : ℕ) : Bool × Option CheckErr :=
  if h : k * interval < maxDur then
    match dial k with
    | none => validateLoopAux dial oldNA maxDur interval hi (k + 1)
    | some [] => validateLoopAux dial oldNA maxDur interval hi (k + 1)
    | some (c :: _) =>
        if certChanged c.notAfter oldNA then (true, none)
        else validateLoopAux dial oldNA maxDur interval hi (k + 1)
  else (false, none)
termination_by maxDur - k * interval
decreasing_by
  all_goals
    have hx : (k + 1) * interval = k * interval + interval := by ring
    omega

/-- validateCertificateWithDialer (lego_cert_work.go lines 711 to 769): parse
the address once, then poll with the loop above from step 0. -/
def validateCertificateWithDialer (hostname : List Char) (oldCert : GoCert)
    (dial : List Char → ℕ → Option (List GoCert)) (maxDur interval : ℕ)
    (hi : 0 < interval) : Bool × Option CheckErr :=
  validateLoopAux (dial (validateDialAddr hostname)) oldCert.notAfter
    maxDur interval hi 0

/-- Outcomes of the individual SSH primitives used by
performSSHCertificateInstallation: whether the TCP/SSH dial succeeds, and for
each remote command whether its session creation and its run succeed.  The
three backup commands, the two file copies, the three permission commands
(chmod 644, chmod 600, chown) and the two restart commands (hostd, vpxa) each
open an independent session. -/
structure SSHEnv where
  dialOk : Bool
  backup1SessionOk : Bool
  backup2SessionOk : Bool
  backup3SessionOk : Bool
  copyCertSessionOk : Bool
  copyCertRunOk : Bool
  copyKeySessionOk : Bool
  copyKeyRunOk : Bool
  perm1SessionOk : Bool
  perm1RunOk : Bool
  perm2SessionOk : Bool
  perm2RunOk : Bool
  perm3SessionOk : Bool
  perm3RunOk : Bool
  hostdSessionOk : Bool
  hostdRunOk : Bool
  vpxaSessionOk : Bool
  vpxaRunOk : Bool
  deriving DecidableEq, Repr

/-- Error values of the installation path; the Go code wraps errors in
strings, modelled here by distinct constructors. -/
inductive InstallErr where
  | sshDialFailed
  | backupSessionFailed
  | copyFilesFailed
  | restartServicesFailed
  | soapConnectFailed
  | hostNotFound
  | serviceSystemFailed
  | manageServiceFailed
  deriving DecidableEq, Repr

/-- backupExistingCertificates (lego_cert_work.go lines 493 to 519): three
commands; a session-creation failure aborts with an error, a command failure
is ignored (CombinedOutput error discarded). -/
def backupExistingCertificates (e : SSHEnv) : Option InstallErr :=
  if ¬ e.backup1SessionOk then some InstallErr.backupSessionFailed
  else if ¬ e.backup2SessionOk then some InstallErr.backupSessionFailed
  else if ¬ e.backup3SessionOk then some InstallErr.backupSessionFailed
  else none

/-- copyFileViaSSH (lego_cert_work.go lines 564 to 582): fails when the
session cannot be created or the cat command fails. -/
def copyFileViaSSH (sessionOk runOk : Bool) : Bool :=
  sessionOk && runOk

/-- copyCertificateFiles (lego_cert_work.go lines 522 to 561): copy the
certificate, copy the key, then run the three permission commands; a
permission session-creation failure returns an error while a permission
command run failure is only warned about. -/
def copyCertificateFiles (e : SSHEnv) : Option InstallErr :=
  if ¬ copyFileViaSSH e.copyCertSessionOk e.copyCertRunOk then
    some InstallErr.copyFilesFailed
  else if ¬ copyFileViaSSH e.copyKeySessionOk e.copyKeyRunOk then
    some InstallErr.copyFilesFailed
  else if ¬ e.perm1SessionOk then some InstallErr.copyFilesFailed
  else if ¬ e.perm2SessionOk then some InstallErr.copyFilesFailed
  else if ¬ e.perm3SessionOk then some InstallErr.copyFilesFailed
  else none

/-- restartESXiServicesViaSSH (lego_cert_work.go lines 585 to 625): runs the
hostd restart then the vpxa restart; a session-creation failure for either
command clears the success flag, a hostd run failure clears it, while a vpxa
run failure is downgraded to a warning because the command string contains
vpxa. -/
def restartESXiServicesViaSSH (e : SSHEnv) : Option InstallErr :=
  let successAfterHostd :=
    if ¬ e.hostdSessionOk then false
    else if ¬ e.hostdRunOk then false
    else true
  let successAfterVpxa :=
    if ¬ e.vpxaSessionOk then false
    else successAfterHostd
  if ¬ successAfterVpxa then some InstallErr.restartServicesFailed else none

/-- performSSHCertificateInstallation (lego_cert_work.go lines 438 to 490):
dial SSH (fatal on failure), back up (failure only warned), copy files
(fatal), restart services (fatal). -/
def performSSHCertificateInstallation (e : SSHEnv) : Option InstallErr :=
  if ¬ e.dialOk then some InstallErr.sshDialFailed
  else
    match copyCertificateFiles e with
    | some _ => some InstallErr.copyFilesFailed
    | none =>
      match restartESXiServicesViaSSH e with
      | some _ => some InstallErr.restartServicesFailed
      | none => none

/-- Outcomes of the SOAP service-management primitives used by
installCertificateViaSSH: connection, host lookup, service-system access,
service listing, whether the TSM-SSH service exists and is running, and
whether Start and Stop succeed. -/
structure SoapEnv where
  connectOk : Bool
  hostFound : Bool
  serviceSystemOk : Bool
  serviceListOk : Bool
  sshServiceFound : Bool
  sshServiceRunning : Bool
  startOk : Bool
  stopOk : Bool
  deriving DecidableEq, Repr

/-- ensureSSHServiceRunning (lego_cert_work.go lines 649 to 689): list the
services, find TSM-SSH, return true when already running, else start it and
return false. -/
def ensureSSHServiceRunning (s : SoapEnv) : Except InstallErr Bool :=
  if ¬ s.serviceListOk then Except.error InstallErr.manageServiceFailed
  else if ¬ s.sshServiceFound then Except.error InstallErr.manageServiceFailed
  else if s.sshServiceRunning then Except.ok true
  else if ¬ s.startOk then Except.error InstallErr.manageServiceFailed
  else Except.ok false

/-- installCertificateViaSSH (lego_cert_work.go lines 344 to 435): connect to
the SOAP API, find the host and its service system, ensure TSM-SSH is
running, perform the SSH installation, then stop TSM-SSH unconditionally (its
failure only warned; the conditional stop on the prior running state is
commented out in the source).  The second component records whether the Stop
call on TSM-SSH was issued. -/
def installCertificateViaSSH (s : SoapEnv) (e : SSHEnv) :
    Option InstallErr × Bool :=
  if ¬ s.connectOk then (some InstallErr.soapConnectFailed, false)
  else if ¬ s.hostFound then (some InstallErr.hostNotFound, false)
  else if ¬ s.serviceSystemOk then (some InstallErr.serviceSystemFailed, false)
  else
    match ensureSSHServiceRunning s with
    | Except.error _ => (some InstallErr.manageServiceFailed, false)
    | Except.ok _wasRunning =>
        (performSSHCertificateInstallation e, true)

/-- Outcomes of the injected dependencies of runWorkflow (main.go): AWS
credential validation, the certificate check, generation, upload and
validation. -/
structure Deps where
  awsOk : Bool
  checkRes : Except Unit (Bool × GoCert)
  genRes : Except Unit (List Char × List Char)
  uploadOk : Bool
  valRes : Except Unit Bool
  deriving Repr

/-- Which of the five injected dependencies runWorkflow invoked. -/
structure CallTrace where
  awsCalled : Bool
  checkerCalled : Bool
  generatorCalled : Bool
  uploaderCalled : Bool
  validatorCalled : Bool
  deriving DecidableEq, Repr

/-- Errors runWorkflow can return. -/
inductive WorkflowErr where
  | awsFailed
  | checkFailed
  | genFailed
  | uploadFailed
  deriving DecidableEq, Repr

/-- runWorkflow (main.go lines 183 to 253): validate AWS credentials, then in
dry-run mode only check the certificate and return; otherwise check, apply the
force override, stop when up to date, else generate, upload, and validate
(validator errors and timeouts only warned).  Also returns the trace of which
dependencies were invoked. -/
def runWorkflow (config : Config) (deps : Deps) :
    Option WorkflowErr × CallTrace :=
  if ¬ deps.awsOk then
    (some WorkflowErr.awsFailed, ⟨true, false, false, false, false⟩)
  else if config.dryRun then
    match deps.checkRes with
    | Except.error _ => (some WorkflowErr.checkFailed, ⟨true, true, false, false, false⟩)
    | Except.ok _ => (none, ⟨true, true, false, false, false⟩)
  else
    match deps.checkRes with
    | Except.error _ => (some WorkflowErr.checkFailed, ⟨true, true, false, false, false⟩)
    | Except.ok (needsRenewal0, _cert) =>
      let needsRenewal := if config.force then true else needsRenewal0
      if ¬ needsRenewal then (none, ⟨true, true, false, false, false⟩)
      else
        match deps.genRes with
        | Except.error _ => (some WorkflowErr.genFailed, ⟨true, true, true, false, false⟩)
        | Except.ok _ =>
          if ¬ deps.uploadOk then
            (some WorkflowErr.uploadFailed, ⟨true, true, true, true, false⟩)
          else (none, ⟨true, true, true, true, true⟩)

/-- An example hostname without a port. -/
def hostNoPortEx : List Char := ['m', 'y', 'h', 'o', 's', 't']

/-- An example hostname with an explicit port 8443. -/
def hostWithPortEx : List Char :=
  ['m', 'y', 'h', 'o', 's', 't', ':', '8', '4', '4', '3']

/-- A sample certificate for witnesses: issued 80 days ago, expiring in 10
days (times in seconds relative to now = 0), signed with SHA256WithRSA. -/
def certScenarioA : GoCert := ⟨-6912000, 864000, SigAlg.sha256WithRSA⟩

/-- A configuration with the Force flag set. -/
def cfgForceEx : Config := ⟨hostNoPortEx, 33 / 100, false, true, 4096⟩

/-- A fully intact cache state holding the scenario-A certificate. -/
def cacheStateEx : CacheState := ⟨true, true, true, true, true, certScenarioA⟩

/-- An outcome environment in which everything succeeds except that the SSH
session for the vpxa restart command cannot be created. -/
def sshVpxaSessionFail : SSHEnv :=
  ⟨true, true, true, true, true, true, true, true, true, true, true, true,
   true, true, true, true, false, true⟩

/-- A service-management environment in which everything succeeds and the
TSM-SSH service is NOT already running. -/
def soapNotRunningEx : SoapEnv := ⟨true, true, true, true, true, false, true, true⟩

/-- An SSH outcome environment in which every primitive succeeds. -/
def sshAllOk : SSHEnv :=
  ⟨true, true, true, true, true, true, true, true, true, true, true, true,
   true, true, true, true, true, true⟩

/-- A dry-run configuration. -/
def cfgDryEx : Config := ⟨hostNoPortEx, 33 / 100, true, false, 2048⟩

/-- Dependency outcomes in which every collaborator succeeds. -/
def depsAllOk : Deps :=
  ⟨true, Except.ok (false, certScenarioA), Except.ok ([], []), true,
   Except.ok true⟩

/-- C6: during validation polling a successfully read certificate counts as
changed relative to the previous certificate exactly when its NotAfter
differs from the previous NotAfter by more than 3600 seconds; a difference of
one hour or less is not a rotation. -/
theorem certChanged_iff_gt_one_hour (n o : ℤ) :
    certChanged n o = true ↔ 3600 < |n - o| := by
  unfold certChanged
  by_cases hno : n = o
  · subst hno
    simp
  · simp only [ne_eq, hno, not_false_eq_true, if_true]
    split <;> simp_all

/-- C8: the private-key generator uses the configured key size unchanged when
it is exactly 2048 or 4096 and replaces every other configured size by 4096. -/
theorem generatePrivateKeySize_policy (config : Config) :
    generatePrivateKeySize config =
      if config.keySize = 2048 ∨ config.keySize = 4096 then config.keySize
      else 4096 := by
  unfold generatePrivateKeySize
  by_cases h1 : config.keySize = 2048 <;> by_cases h2 : config.keySize = 4096 <;>
    simp [h1, h2]

/-- C10: when the hostname does not parse as host:port, both the inspector
and the validator dial the hostname itself joined with the default port 443;
when it does parse, the given host and port are used unchanged. -/
theorem dialAddr_default_port_443 (hp : List Char) :
    (splitHostPort hp = none →
      checkDialAddr hp = joinHostPort hp port443 ∧
      validateDialAddr hp = joinHostPort hp port443) ∧
    (∀ h p, splitHostPort hp = some (h, p) →
      checkDialAddr hp = joinHostPort h p ∧
      validateDialAddr hp = joinHostPort h p) := by
  constructor
  · intro hnone
    constructor <;> simp [checkDialAddr, validateDialAddr, hnone]
  · intro h p hsome
    constructor <;> simp [checkDialAddr, validateDialAddr, hsome]

/-- C10 witness: a concrete hostname without a port resolves to port 443 and
one with port 8443 keeps its port, for both the inspector and the validator. -/
theorem dialAddr_default_port_443_witness :
    checkDialAddr hostNoPortEx = joinHostPort hostNoPortEx port443 ∧
    validateDialAddr hostWithPortEx =
      joinHostPort ['m', 'y', 'h', 'o', 's', 't'] ['8', '4', '4', '3'] := by
  constructor
  · exact ((dialAddr_default_port_443 hostNoPortEx).1 (by decide)).1
  · exact ((dialAddr_default_port_443 hostWithPortEx).2
      ['m', 'y', 'h', 'o', 's', 't'] ['8', '4', '4', '3'] (by decide)).2

/-- C1: for a valid leaf certificate (NotAfter > NotBefore) and a threshold in
(0,1), the inspector returns needsRenewal = true exactly when
percentRemaining = (NotAfter - now) / (NotAfter - NotBefore) is at most the
threshold. -/
theorem checkCertificate_needsRenewal_iff (hostname : List Char)
    (dial : List Char → Option (List GoCert)) (now : ℤ) (t : ℚ)
    (c : GoCert) (rest : List GoCert)
    (hdial : dial (checkDialAddr hostname) = some (c :: rest))
    (hvalid : c.notBefore < c.notAfter) (ht0 : 0 < t) (ht1 : t < 1) :
    checkCertificateWithDialer hostname t dial now = Except.ok (true, c) ↔
      percentRemainingQ c.notBefore c.notAfter now ≤ t := by
  have htot : c.notAfter - c.notBefore ≠ 0 := by omega
  simp [checkCertificateWithDialer, hdial, needsRenewalCalc, goFloatLE, htot,
    percentRemainingQ]

/-- C1 witness: at threshold 0.33 the scenario-A certificate (10 of 90 days
remaining) is reported as needing renewal. -/
theorem checkCertificate_needsRenewal_iff_witness :
    checkCertificateWithDialer hostNoPortEx (33 / 100)
      (fun _ => some [certScenarioA]) 0 = Except.ok (true, certScenarioA) := by
  refine (checkCertificate_needsRenewal_iff hostNoPortEx
    (fun _ => some [certScenarioA]) 0 (33 / 100) certScenarioA [] rfl
    (by norm_num [certScenarioA]) (by norm_num) (by norm_num)).mpr ?_
  norm_num [percentRemainingQ, certScenarioA]

/-- C5 counterexample: a certificate whose NotBefore lies in the future has
percentRemaining = 2, outside [0,1], yet the inspector computation reports
needsRenewal = false at threshold 1/3, so an out-of-range percentRemaining is
not treated as needing renewal. -/
theorem percentRemaining_out_of_range_not_renewed :
    percentRemainingQ 1000 2000 0 = 2 ∧
    needsRenewalCalc 1000 2000 0 (1 / 3) = false := by
  constructor
  · norm_num [percentRemainingQ]
  · norm_num [needsRenewalCalc, goFloatLE]

/-- C5 amended: the percent-remaining computation is total (never crashes);
with a nonzero total lifetime, a negative percentRemaining (an expired
certificate) is always treated as needing renewal, while a percentRemaining
above 1 (NotBefore in the future) is treated as NOT needing renewal for any
threshold below 1. -/
theorem percentRemaining_out_of_range_behavior (nb na now : ℤ) (t : ℚ)
    (ht0 : 0 < t) (ht1 : t < 1) (htot : na - nb ≠ 0) :
    (needsRenewalCalc nb na now t = true ∨ needsRenewalCalc nb na now t = false) ∧
    (percentRemainingQ nb na now < 0 → needsRenewalCalc nb na now t = true) ∧
    (1 < percentRemainingQ nb na now → needsRenewalCalc nb na now t = false) := by
  refine ⟨?_, ?_, ?_⟩
  · cases needsRenewalCalc nb na now t <;> simp
  · intro h
    simp only [needsRenewalCalc, goFloatLE, if_neg htot, decide_eq_true_eq,
      percentRemainingQ] at h ⊢
    exact le_of_lt (lt_trans h ht0)
  · intro h
    simp only [needsRenewalCalc, goFloatLE, if_neg htot, decide_eq_false_iff_not,
      percentRemainingQ] at h ⊢
    intro hle
    exact absurd (lt_of_lt_of_le ht1 (le_trans (le_of_lt h) hle)) (lt_irrefl t)

/-- C5 amended witness: an expired certificate (percentRemaining = -1/10) is
renewed and the future-dated certificate (percentRemaining = 2) is not. -/
theorem percentRemaining_out_of_range_behavior_witness :
    needsRenewalCalc (-1000) 0 100 (1 / 3) = true ∧
    needsRenewalCalc 1000 2000 0 (1 / 3) = false := by
  constructor
  · exact (percentRemaining_out_of_range_behavior (-1000) 0 100 (1 / 3)
      (by norm_num) (by norm_num) (by norm_num)).2.1
      (by norm_num [percentRemainingQ])
  · exact (percentRemaining_out_of_range_behavior 1000 2000 0 (1 / 3)
      (by norm_num) (by norm_num) (by norm_num)).2.2
      (by norm_num [percentRemainingQ])

/-- Under float semantics, remaining / total <= q rules out
remaining / total > q. -/
theorem goFloatLE_GT_false (r t : ℤ) (q : ℚ) (h : goFloatLE r t q = true) :
    goFloatGT r t q = false := by
  unfold goFloatLE at h
  unfold goFloatGT
  by_cases ht : t = 0
  · simp [ht] at h ⊢
    omega
  · simp [ht] at h ⊢
    exact h

/-- C3: the cache lookup reports found = false whenever Force is set, either
cached file is missing, the certificate file is unreadable, undecodable or
unparsable, the cached signature algorithm is not SHA256WithRSA, or the
cached percentRemaining is at most one half; and the lookup returns no error
in any of these cases, only the miss value. -/
theorem cacheGet_found_imp (tmpDir : List Char) (config : Config)
    (st : CacheState) (now : ℤ)
    (hfound : (getCachedCertificate tmpDir config st now).2.2 = true) :
    config.force = false ∧ st.certFileExists = true ∧
    st.keyFileExists = true ∧ st.certReadOk = true ∧
    st.pemDecodeOk = true ∧ st.parseOk = true ∧
    st.cachedCert.sigAlg = SigAlg.sha256WithRSA ∧
    goFloatGT (st.cachedCert.notAfter - now)
      (st.cachedCert.notAfter - st.cachedCert.notBefore) (1 / 2) = true := by
  unfold getCachedCertificate at hfound
  cases hf : config.force
  · cases h1 : st.certFileExists
    · simp [hf, h1] at hfound
    · cases h2 : st.keyFileExists
      · simp [hf, h1, h2] at hfound
      · cases h3 : st.certReadOk
        · simp [hf, h1, h2, h3] at hfound
        · cases h4 : st.pemDecodeOk
          · simp [hf, h1, h2, h3, h4] at hfound
          · cases h5 : st.parseOk
            · simp [hf, h1, h2, h3, h4, h5] at hfound
            · cases hsa : st.cachedCert.sigAlg
              · cases hgt : goFloatGT (st.cachedCert.notAfter - now)
                  (st.cachedCert.notAfter - st.cachedCert.notBefore) (1 / 2)
                · rw [hgt] at hfound
                  simp [hf, h1, h2, h3, h4, h5, hsa] at hfound
                · exact ⟨rfl, rfl, rfl, rfl, rfl, rfl, rfl, rfl⟩
              · simp [hf, h1, h2, h3, h4, h5, hsa] at hfound
  · simp [hf] at hfound

/-- C3: the cache lookup reports found = false whenever Force is set, either
cached file is missing, the certificate file is unreadable, undecodable or
unparsable, the cached signature algorithm is not SHA256WithRSA, or the
cached percentRemaining is at most one half; and the lookup returns no error
in any of these cases, only the miss value. -/
theorem cacheGet_soft_miss (tmpDir : List Char) (config : Config)
    (st : CacheState) (now : ℤ)
    (h : config.force = true ∨ st.certFileExists = false ∨
      st.keyFileExists = false ∨ st.certReadOk = false ∨
      st.pemDecodeOk = false ∨ st.parseOk = false ∨
      st.cachedCert.sigAlg ≠ SigAlg.sha256WithRSA ∨
      goFloatLE (st.cachedCert.notAfter - now)
        (st.cachedCert.notAfter - st.cachedCert.notBefore) (1 / 2) = true) :
    (getCachedCertificate tmpDir config st now).2.2 = false := by
  cases hfound : (getCachedCertificate tmpDir config st now).2.2
  · rfl
  · exfalso
    obtain ⟨hf, h1, h2, h3, h4, h5, hsa, hgt⟩ :=
      cacheGet_found_imp tmpDir config st now hfound
    rcases h with h | h | h | h | h | h | h | h
    · simp_all
    · simp_all
    · simp_all
    · simp_all
    · simp_all
    · simp_all
    · simp_all
    · rw [goFloatLE_GT_false _ _ _ h] at hgt
      exact Bool.noConfusion hgt

/-- C3 witness: with Force set the cache lookup misses even on an intact
cache entry. -/
theorem cacheGet_soft_miss_witness :
    (getCachedCertificate [] cfgForceEx cacheStateEx 0).2.2 = false :=
  cacheGet_soft_miss [] cfgForceEx cacheStateEx 0 (Or.inl rfl)

/-- copyCertificateFiles succeeds exactly when both file copies succeed and
all three permission sessions can be created; permission command run
failures do not matter. -/
theorem copyCertificateFiles_none_iff (e : SSHEnv) :
    copyCertificateFiles e = none ↔
      (e.copyCertSessionOk = true ∧ e.copyCertRunOk = true ∧
       e.copyKeySessionOk = true ∧ e.copyKeyRunOk = true ∧
       e.perm1SessionOk = true ∧ e.perm2SessionOk = true ∧
       e.perm3SessionOk = true) := by
  obtain ⟨d, b1, b2, b3, ccs, ccr, cks, ckr, p1s, p1r, p2s, p2r, p3s, p3r,
    hs, hr, vs, vr⟩ := e
  cases ccs <;> cases ccr <;> cases cks <;> cases ckr <;> cases p1s <;>
    cases p2s <;> cases p3s <;>
    simp [copyCertificateFiles, copyFileViaSSH]

/-- restartESXiServicesViaSSH succeeds exactly when the hostd session and run
succeed and the vpxa session can be created; the vpxa run result does not
matter. -/
theorem restartESXi_none_iff (e : SSHEnv) :
    restartESXiServicesViaSSH e = none ↔
      (e.hostdSessionOk = true ∧ e.hostdRunOk = true ∧
       e.vpxaSessionOk = true) := by
  obtain ⟨d, b1, b2, b3, ccs, ccr, cks, ckr, p1s, p1r, p2s, p2r, p3s, p3r,
    hs, hr, vs, vr⟩ := e
  cases hs <;> cases hr <;> cases vs <;>
    simp [restartESXiServicesViaSSH]

/-- C2 amended: the SSH installation returns a nil error exactly when the SSH
dial, both file copies, all three permission-command session creations, the
hostd restart (session and run) and the vpxa restart session creation
succeed.  Backup outcomes, permission-command run outcomes and the vpxa
restart run outcome never affect the returned error. -/
theorem installReturns_nonNil_iff (e : SSHEnv) :
    performSSHCertificateInstallation e = none ↔
      (e.dialOk = true ∧ e.copyCertSessionOk = true ∧ e.copyCertRunOk = true ∧
       e.copyKeySessionOk = true ∧ e.copyKeyRunOk = true ∧
       e.perm1SessionOk = true ∧ e.perm2SessionOk = true ∧
       e.perm3SessionOk = true ∧ e.hostdSessionOk = true ∧
       e.hostdRunOk = true ∧ e.vpxaSessionOk = true) := by
  constructor
  · intro h
    unfold performSSHCertificateInstallation at h
    by_cases hd : e.dialOk = true
    · simp only [hd, not_true_eq_false, if_false] at h
      cases hcf : copyCertificateFiles e with
      | some err => rw [hcf] at h; simp at h
      | none =>
        rw [hcf] at h
        cases hre : restartESXiServicesViaSSH e with
        | some err => rw [hre] at h; simp at h
        | none =>
          obtain ⟨h1, h2, h3, h4, h5, h6, h7⟩ :=
            (copyCertificateFiles_none_iff e).mp hcf
          obtain ⟨h8, h9, h10⟩ := (restartESXi_none_iff e).mp hre
          exact ⟨hd, h1, h2, h3, h4, h5, h6, h7, h8, h9, h10⟩
    · simp [hd] at h
  · rintro ⟨hd, h1, h2, h3, h4, h5, h6, h7, h8, h9, h10⟩
    have hcf : copyCertificateFiles e = none :=
      (copyCertificateFiles_none_iff e).mpr ⟨h1, h2, h3, h4, h5, h6, h7⟩
    have hre : restartESXiServicesViaSSH e = none :=
      (restartESXi_none_iff e).mpr ⟨h8, h9, h10⟩
    simp [performSSHCertificateInstallation, hd, hcf, hre]

/-- C2 counterexample: with every primitive succeeding except the session
creation for the vpxa restart command, the installation returns a non-nil
error even though both file uploads succeeded and the hostd restart session
and run both succeeded — so failures in the vpxa step can cause a non-nil
return, contrary to the claim. -/
theorem installReturns_nonNil_vpxa_counterexample :
    performSSHCertificateInstallation sshVpxaSessionFail ≠ none ∧
    copyFileViaSSH sshVpxaSessionFail.copyCertSessionOk
      sshVpxaSessionFail.copyCertRunOk = true ∧
    copyFileViaSSH sshVpxaSessionFail.copyKeySessionOk
      sshVpxaSessionFail.copyKeyRunOk = true ∧
    sshVpxaSessionFail.hostdSessionOk = true ∧
    sshVpxaSessionFail.hostdRunOk = true := by decide

/-- C7: once the SOAP connection, host lookup and service-system retrieval
succeed and EnsureRunning returns (fatal otherwise), the install path always
issues the Stop call on the TSM-SSH service — whatever EnsureRunning reported
about the prior running state and however the SSH installation itself went. -/
theorem tsmSSH_stop_always_invoked (s : SoapEnv) (e : SSHEnv) (b : Bool)
    (hc : s.connectOk = true) (hh : s.hostFound = true)
    (hs : s.serviceSystemOk = true)
    (he : ensureSSHServiceRunning s = Except.ok b) :
    (installCertificateViaSSH s e).2 = true := by
  unfold installCertificateViaSSH
  simp [hc, hh, hs, he]

/-- C7 witness: with the service initially stopped (EnsureRunning reports it
was not already running), the Stop call is still issued after the install. -/
theorem tsmSSH_stop_always_invoked_witness :
    (installCertificateViaSSH soapNotRunningEx sshAllOk).2 = true :=
  tsmSSH_stop_always_invoked soapNotRunningEx sshAllOk false rfl rfl rfl rfl

/-- C9: in dry-run mode the workflow never invokes the certificate generator,
the uploader or the validator — only the AWS check and the live-certificate
inspection run, so neither the cache nor the remote host is touched. -/
theorem runWorkflow_dryRun_no_mutation (config : Config) (deps : Deps)
    (h : config.dryRun = true) :
    (runWorkflow config deps).2.generatorCalled = false ∧
    (runWorkflow config deps).2.uploaderCalled = false ∧
    (runWorkflow config deps).2.validatorCalled = false := by
  unfold runWorkflow
  cases hA : deps.awsOk <;> simp [hA, h] <;>
    cases hC : deps.checkRes <;> simp [hC]

/-- C9 witness: a concrete dry run leaves generator, uploader and validator
uninvoked. -/
theorem runWorkflow_dryRun_no_mutation_witness :
    (runWorkflow cfgDryEx depsAllOk).2.generatorCalled = false ∧
    (runWorkflow cfgDryEx depsAllOk).2.uploaderCalled = false ∧
    (runWorkflow cfgDryEx depsAllOk).2.validatorCalled = false :=
  runWorkflow_dryRun_no_mutation cfgDryEx depsAllOk rfl

/-- With a dialer that always fails to connect, the polling loop reaches the
deadline and returns rotated = false with a nil error, from any step. -/
theorem validateLoop_allConnFail (oldNA : ℤ) (maxDur interval : ℕ)
    (hi : 0 < interval) :
    ∀ n k, maxDur - k * interval ≤ n →
      validateLoopAux (fun _ => none) oldNA maxDur interval hi k =
        (false, none) := by
  intro n
  induction n with
  | zero =>
    intro k hk
    rw [validateLoopAux.eq_def]
    have hnot : ¬ k * interval < maxDur := by omega
    simp [hnot]
  | succ n ih =>
    intro k hk
    rw [validateLoopAux.eq_def]
    by_cases hlt : k * interval < maxDur
    · simp only [hlt, dite_true, if_pos hlt]
      exact ih (k + 1) (by
        have hx : (k + 1) * interval = k * interval + interval := by ring
        omega)
    · simp [hlt]

/-- C4: a connection failure during polling is non-terminal — while the
deadline has not passed, a failed dial at step k makes the loop continue at
step k + 1 — and against a dialer that always fails the validator reaches the
deadline and returns (rotated = false, error = nil). -/
theorem validate_timeout_advisory (hostname : List Char) (oldCert : GoCert)
    (maxDur interval : ℕ) (hi : 0 < interval) :
    (∀ (dial : ℕ → Option (List GoCert)) (k : ℕ),
      k * interval < maxDur → dial k = none →
      validateLoopAux dial oldCert.notAfter maxDur interval hi k =
        validateLoopAux dial oldCert.notAfter maxDur interval hi (k + 1)) ∧
    validateCertificateWithDialer hostname oldCert (fun _ _ => none)
      maxDur interval hi = (false, none) := by
  constructor
  · intro dial k hk hd
    conv_lhs => rw [validateLoopAux.eq_def]
    simp [hk, hd]
  · unfold validateCertificateWithDialer
    exact validateLoop_allConnFail oldCert.notAfter maxDur interval hi
      maxDur 0 (by omega)

/-- C4 witness: with a five-minute deadline and thirty-second poll interval
(in seconds), the validator against an always-failing dialer returns
rotated = false and a nil error. -/
theorem validate_timeout_advisory_witness :
    validateCertificateWithDialer hostNoPortEx certScenarioA
      (fun _ _ => none) 300 30 (by norm_num) = (false, none) :=
  (validate_timeout_advisory hostNoPortEx certScenarioA 300 30
    (by norm_num)).2
